import Mathlib

/-
Shallow embedding of the siliconflow-api gateway (src/app.py): credential
pool rotation, model registry refresh, usage ledger, streaming usage
extraction and the chat-completions handler.  Library collaborators
(the HTTP client, the JSON parser) are modelled as explicit inputs;
machine state (the module-level globals) is passed explicitly.
-/

namespace SFGateway

/-- JSON values, as produced by the json library: objects are ordered
association lists, numbers are integers (token counts are integral). -/
inductive Json where
  | null : Json
  | bool (b : Bool) : Json
  | num (n : Int) : Json
  | str (s : String) : Json
  | arr (xs : List Json) : Json
  | obj (fields : List (String × Json)) : Json

/-- Python truthiness of a JSON value (`if m.get("id")`). -/
def jsonTruthy : Json → Bool
  | .null => false
  | .bool b => b
  | .num n => n != 0
  | .str s => !(s == "")
  | .arr xs => !xs.isEmpty
  | .obj fs => !fs.isEmpty

/-- Embeds the expression js.get("usage", \x7b\x7d).get("total_tokens", 0)
(lines 152 and 167).  `none` marks the AttributeError raised when `js`
or its `usage` member is not a dict; the callers catch that exception.
A `total_tokens` value is an integer in upstream responses; token counts
are modelled as integers and a non-integer value as 0. -/
def usageTotalTokens (js : Json) : Option Int :=
  match js with
  | .obj fs =>
    match (fs.lookup "usage").getD (.obj []) with
    | .obj ufs =>
      match (ufs.lookup "total_tokens").getD (.num 0) with
      | .num n => some n
      | _ => some 0
    | _ => none
  | _ => none

/- ### Character-level models of the Python string operations used -/

/-- Python str.strip: drop leading and trailing whitespace. -/
def trimChars (cs : List Char) : List Char :=
  ((cs.dropWhile Char.isWhitespace).reverse.dropWhile Char.isWhitespace).reverse

/-- Python str.strip on a string. -/
def pyStrip (s : String) : String :=
  String.mk (trimChars s.toList)

def splitlinesAux : List Char → List Char → List String
  | [], acc => [String.mk acc.reverse]
  | c :: rest, acc =>
    if c = '\n' then String.mk acc.reverse :: splitlinesAux rest []
    else splitlinesAux rest (c :: acc)

/-- Python str.splitlines for LF-terminated text (the SSE upstream emits
LF): the empty string gives no lines, and a trimmed string has no
trailing newline, so no trailing empty entry arises. -/
def splitlines (s : String) : List String :=
  match s.toList with
  | [] => []
  | cs => splitlinesAux cs []

def splitCommasAux : List Char → List Char → List String
  | [], acc => [String.mk acc.reverse]
  | c :: rest, acc =>
    if c = ',' then String.mk acc.reverse :: splitCommasAux rest []
    else splitCommasAux rest (c :: acc)

/-- Python raw.split(",") — always one more part than separators. -/
def splitCommas (s : String) : List String :=
  splitCommasAux s.toList []

/-- Concatenation of the streamed chunks, in arrival order. -/
def strConcat : List String → String
  | [] => ""
  | c :: rest => c ++ strConcat rest

/- ### Credential pool (app.py lines 37-41, 64-70) -/

/-- load_keys (lines 37-41): split the KEYS variable on commas, strip
each part, keep the non-empty ones. -/
def load_keys (raw : String) : List String :=
  ((splitCommas raw).map pyStrip).filter (fun k => !(k == ""))

/-- select_key (lines 64-70).  The rotation dict model_key_idx is a
total map defaulting to 0, matching model_key_idx.get(model_name, 0);
on a non-empty pool it returns pool[stored mod N] and stores
(stored mod N) + 1 for that model. -/
def select_key (all_keys : List String) (model_key_idx : String → Nat)
    (model_name : String) : Option (String × (String → Nat)) :=
  if h : 0 < all_keys.length then
    let idx := model_key_idx model_name % all_keys.length
    some (all_keys.get ⟨idx, Nat.mod_lt _ h⟩,
      fun m => if m = model_name then idx + 1 else model_key_idx m)
  else
    none

/-- The selections made by a sequence of requests (one model name per
request), threading the rotation state through select_key. -/
def runSelections (all_keys : List String) :
    (String → Nat) → List String → List (Option String)
  | _, [] => []
  | idx, m :: rest =>
    match select_key all_keys idx m with
    | none => none :: runSelections all_keys idx rest
    | some (k, idx2) => some k :: runSelections all_keys idx2 rest

/- ### Model registry (app.py lines 43-62) -/

/-- The list comprehension of line 58 over the entries of data["data"]:
keeps m["id"] for entries whose id is truthy; `none` marks the exception
raised when an entry is not a dict.  A ModelID is a string (spec section
3); id values are strings in upstream responses. -/
def collectIds : List Json → Option (List String)
  | [] => some []
  | e :: rest =>
    match e with
    | .obj fs =>
      match fs.lookup "id" with
      | none => collectIds rest
      | some v =>
        if jsonTruthy v then
          match v with
          | .str s => (collectIds rest).map (fun tl => s :: tl)
          | _ => collectIds rest
        else collectIds rest
    | _ => none

/-- data.get("data", []) and the comprehension of line 58; `none` marks
any exception raised while extracting (non-dict body, non-list data,
non-dict entry), which refresh_models catches. -/
def extractModels (js : Json) : Option (List String) :=
  match js with
  | .obj fs =>
    match (fs.lookup "data").getD (.arr []) with
    | .arr entries => collectIds entries
    | _ => none
  | _ => none

/-- refresh_models (lines 43-62).  The upstream GET is an input:
`none` models a transport exception from requests.get, and
`some (status, body)` a response, where `body = none` models a
resp.json() parse failure.  raise_for_status raises exactly when the
status is 400 or above.  Every failure path assigns text_models = []. -/
def refresh_models (all_keys : List String)
    (fetch : Option (Nat × Option Json)) : List String :=
  match all_keys with
  | [] => []
  | _ :: _ =>
    match fetch with
    | none => []
    | some (status, body) =>
      if 400 ≤ status then []
      else
        match body with
        | none => []
        | some js =>
          match extractModels js with
          | none => []
          | some ids => ids

/-- Membership check `model in text_models` (line 111). -/
def isValid (text_models : List String) (m : String) : Bool :=
  text_models.contains m

/-- Lines 110-111 for the full request: data.get("model") gives None
when the field is absent, and None is never in a list of strings. -/
def modelValid (text_models : List String) : Option String → Bool
  | none => false
  | some m => text_models.contains m

/- ### Usage ledger (app.py lines 30-34, 83-85, 157-162, 169-174) -/

/-- The four module-level sequences guarded by data_lock. -/
structure Ledger where
  request_timestamps : List Int
  token_counts : List Int
  request_timestamps_day : List Int
  token_counts_day : List Int

def Ledger.empty : Ledger := ⟨[], [], [], []⟩

/-- The four appends performed under data_lock (lines 157-162 and
169-174); a single atomic state transition. -/
def Ledger.record (L : Ledger) (now : Int) (t : Int) : Ledger :=
  ⟨L.request_timestamps ++ [now], L.token_counts ++ [t],
   L.request_timestamps_day ++ [now], L.token_counts_day ++ [t]⟩

/-- The statistics read under data_lock by the index route
(lines 83-85): counts are lengths, totals are sums. -/
structure Stats where
  rpm : Nat
  tpm : Int
  rpd : Nat
  tpd : Int

def Ledger.snapshot (L : Ledger) : Stats :=
  ⟨L.request_timestamps.length, L.token_counts.sum,
   L.request_timestamps_day.length, L.token_counts_day.sum⟩

/-- record applied to a whole list of (timestamp, tokens) entries. -/
def recordAll (L : Ledger) (entries : List (Int × Int)) : Ledger :=
  entries.foldl (fun acc e => acc.record e.1 e.2) L

/-- Key masking on the status page (line 86): ten asterisks followed by
the last six characters (k[-6:], i.e. the whole key when shorter). -/
def maskKey (k : String) : String :=
  String.mk (List.replicate 10 '*' ++ k.toList.drop (k.toList.length - 6))

/- ### Streaming usage extraction and the generator (app.py lines 136-164) -/

/-- The value line 152 computes for one payload, with the surrounding
try/except folded in: a json.loads failure or an AttributeError from the
chained .get calls leaves total_tokens at 0.  The JSON parser is an
input (`parse`), with `none` modelling a json.loads exception. -/
def payloadTokens (parse : String → Option Json) (payload : String) : Int :=
  match parse payload with
  | none => 0
  | some js => (usageTotalTokens js).getD 0

/-- The backward scan of lines 146-153 over the reversed line list:
skip lines without the `data: ` marker, skip the literal [DONE]
terminator, and take the first remaining payload — a failure while
parsing it ends the whole scan with 0 (the except clause), it does not
fall through to earlier lines. -/
def scanBack (parse : String → Option Json) : List String → Int
  | [] => 0
  | line :: rest =>
    if ("data: ".toList).isPrefixOf line.toList then
      let payload := String.mk (line.toList.drop 6)
      if payload = "[DONE]" then scanBack parse rest
      else payloadTokens parse payload
    else scanBack parse rest

/-- Lines 143-155: decode the accumulated buffer, strip it, split into
lines and scan them in reverse. -/
def extractStreamTokens (parse : String → Option Json) (buffer : String) : Int :=
  scanBack parse (splitlines (pyStrip buffer)).reverse

/-- A line that the backward scan would stop at: it carries the
`data: ` marker and is not the [DONE] terminator. -/
def isCandidateLine (line : String) : Bool :=
  ("data: ".toList).isPrefixOf line.toList &&
    !(String.mk (line.toList.drop 6) == "[DONE]")

/-- One observable action of the generator of lines 136-163: a chunk
yielded to the caller, or the usage record appended to the ledger. -/
inductive GenStep where
  | yieldChunk (chunk : String) : GenStep
  | recordUsage (tokens : Int) : GenStep

/-- The loop of lines 139-141: each chunk is appended to the buffer and
yielded; returns the action trace of the loop and the final buffer. -/
def genLoop : List String → String → List GenStep × String
  | [], buffer => ([], buffer)
  | chunk :: rest, buffer =>
    let r := genLoop rest (buffer ++ chunk)
    (GenStep.yieldChunk chunk :: r.1, r.2)

/-- The generator gen (lines 136-162): yield every chunk while
accumulating the buffer, then extract total_tokens from the buffer and
append one record to the ledger, all after the last yield.  Returns the
ordered action trace and the updated ledger. -/
def gen (parse : String → Option Json) (chunks : List String)
    (ledger : Ledger) (now : Int) : List GenStep × Ledger :=
  let r := genLoop chunks ""
  let total_tokens := extractStreamTokens parse r.2
  (r.1 ++ [GenStep.recordUsage total_tokens], ledger.record now total_tokens)

/- ### The chat-completions handler (app.py lines 104-180) -/

/-- The fields of the request body the handler reads.  Other fields are
forwarded verbatim and not modelled. -/
structure ChatRequest where
  modelField : Option String
  stream : Bool
  max_tokens : Option Int

/-- Lines 114-116: the default filled into the forwarded body when
max_tokens is absent. -/
def fill_max_tokens (mt : Option Int) : Int :=
  mt.getD 32000

/-- The upstream POST response: its status code, the result of
resp.json() (`none` = parse failure, which raises), and the chunk
sequence iter_content yields on the streaming path. -/
structure UpstreamResp where
  status : Nat
  body : Option Json
  chunks : List String

/-- The terminal state reached by one handler invocation (spec section
4.4). -/
inductive Outcome where
  | unauthorized : Outcome
  | invalidModel : Outcome
  | noKey : Outcome
  | rateLimited : Outcome
  | proxyError : Outcome
  | streamed : Outcome
  | buffered : Outcome
deriving DecidableEq

/-- The response body: a JSON document, or the event-stream trace of
the generator. -/
inductive HttpBody where
  | json (js : Json) : HttpBody
  | eventStream (steps : List GenStep) : HttpBody

def errBody (msg : String) : HttpBody :=
  .json (.obj [("error", .str msg)])

/-- Everything one invocation of the handler produces: the HTTP status
and body, the rotation state and ledger afterwards, and the terminal
state reached. -/
structure ChatResult where
  status : Nat
  body : HttpBody
  model_key_idx : String → Nat
  ledger : Ledger
  outcome : Outcome

/-- chat_completions (lines 104-180).  check_auth is the boolean
`authOk` (it only reads the environment and headers); the upstream POST
is the input `upstream` — `Except.error e` models a requests exception
with message e, caught at line 178.  The placeholder messages on the
500 paths stand for the raised exception's text, which the code
interpolates and this model does not track.  `if not key` at line 119
is true for the empty string as well as for None. -/
def chat_completions (authOk : Bool) (text_models : List String)
    (all_keys : List String) (model_key_idx : String → Nat)
    (ledger : Ledger) (req : ChatRequest)
    (upstream : Except String UpstreamResp)
    (parse : String → Option Json) (now : Int) : ChatResult :=
  if !authOk then
    ⟨401, errBody "Unauthorized", model_key_idx, ledger, .unauthorized⟩
  else
    match req.modelField with
    | none => ⟨400, errBody "Invalid model", model_key_idx, ledger, .invalidModel⟩
    | some model =>
      if !(text_models.contains model) then
        ⟨400, errBody "Invalid model", model_key_idx, ledger, .invalidModel⟩
      else
        match select_key all_keys model_key_idx model with
        | none => ⟨429, errBody "No available key", model_key_idx, ledger, .noKey⟩
        | some (key, idx2) =>
          if key = "" then
            ⟨429, errBody "No available key", idx2, ledger, .noKey⟩
          else
            match upstream with
            | .error e => ⟨500, errBody e, idx2, ledger, .proxyError⟩
            | .ok resp =>
              if resp.status = 429 then
                match resp.body with
                | none => ⟨500, errBody "json decode error", idx2, ledger, .proxyError⟩
                | some js => ⟨429, .json js, idx2, ledger, .rateLimited⟩
              else if req.stream then
                let r := gen parse resp.chunks ledger now
                ⟨200, .eventStream r.1, idx2, r.2, .streamed⟩
              else
                match resp.body with
                | none => ⟨500, errBody "json decode error", idx2, ledger, .proxyError⟩
                | some js =>
                  match usageTotalTokens js with
                  | none => ⟨500, errBody "attribute error", idx2, ledger, .proxyError⟩
                  | some t => ⟨200, .json js, idx2, ledger.record now t, .buffered⟩

/-- The states (all_keys, text_models) the process can reach: boot runs
load_keys then refresh_models on a schedule; all_keys never changes
after load_keys (lines 183-187). -/
inductive Reachable : List String → List String → Prop where
  | boot (raw : String) : Reachable (load_keys raw) []
  | step (all_keys text_models : List String) (fetch : Option (Nat × Option Json)) :
      Reachable all_keys text_models →
      Reachable all_keys (refresh_models all_keys fetch)

/- ### Concrete fixtures used by witnesses and counterexamples -/

/-- The JSON document with a usage.total_tokens field. -/
def usageJson (n : Int) : Json :=
  .obj [("usage", .obj [("total_tokens", .num n)])]

def usagePayload42 : String :=
  "\x7b\"usage\": \x7b\"total_tokens\": 42\x7d\x7d"

def usagePayload7 : String :=
  "\x7b\"usage\": \x7b\"total_tokens\": 7\x7d\x7d"

/-- Stand-in for json.loads restricted to the payloads the concrete
streams in this development exercise; every other string is a parse
failure. -/
def testParse (s : String) : Option Json :=
  if s = usagePayload42 then some (usageJson 42)
  else if s = usagePayload7 then some (usageJson 7)
  else none

/-- Formalised from the claim's words (for comparison with the code's
extraction): the usage.total_tokens value of a payload that actually
carries such a field, none otherwise. -/
def usageFieldTokens (js : Json) : Option Int :=
  match js with
  | .obj fs =>
    match fs.lookup "usage" with
    | some (.obj ufs) =>
      match ufs.lookup "total_tokens" with
      | some (.num n) => some n
      | _ => none
    | _ => none
  | _ => none

/-- Formalised from the claim's words: scanning from the end of the
stream, the last well-formed JSON `data: ` payload (excluding the
[DONE] terminator) that carries a usage.total_tokens field; none when
no such payload exists anywhere. -/
def specLastUsageTokens (parse : String → Option Json) (buffer : String) : Option Int :=
  ((splitlines (pyStrip buffer)).reverse.filterMap (fun line =>
    if ("data: ".toList).isPrefixOf line.toList then
      let payload := String.mk (line.toList.drop 6)
      if payload = "[DONE]" then none
      else
        match parse payload with
        | none => none
        | some js => usageFieldTokens js
    else none)).head?

/-- A stream whose trailing data line is malformed while an earlier
line carries a usage payload. -/
def counterexampleBuffer : String :=
  "data: " ++ usagePayload7 ++ "\ndata: oops\ndata: [DONE]"

/-- A stream whose last candidate data line carries total_tokens 42. -/
def witnessBuffer42 : String :=
  "x\ndata: " ++ usagePayload42 ++ "\ndata: [DONE]"

/-- A single upstream chunk carrying the 42-token usage payload. -/
def streamChunk42 : String :=
  "data: " ++ usagePayload42

/- ## Theorems -/

/-- recordAll appends the timestamps and token counts of its entries,
in order, to all four sequences. -/
theorem recordAll_spec (entries : List (Int × Int)) : ∀ L : Ledger,
    recordAll L entries =
      ⟨L.request_timestamps ++ entries.map Prod.fst,
       L.token_counts ++ entries.map Prod.snd,
       L.request_timestamps_day ++ entries.map Prod.fst,
       L.token_counts_day ++ entries.map Prod.snd⟩ := by
  induction entries with
  | nil => intro L; simp [recordAll]
  | cons e es ih =>
    intro L
    have h : recordAll L (e :: es) = recordAll (L.record e.1 e.2) es := rfl
    rw [h, ih]
    simp [Ledger.record]

/-- Claim C7: K records on an empty ledger produce a snapshot with
rolling and daily request counts both K and rolling and daily token
totals both the sum of the recorded counts; record appends to all four
sequences in one atomic step, so the timestamp and token sequences of
each window always have equal lengths. -/
theorem ledger_counts_and_sums (entries : List (Int × Int)) :
    (recordAll Ledger.empty entries).snapshot =
      ⟨entries.length, (entries.map Prod.snd).sum,
       entries.length, (entries.map Prod.snd).sum⟩ ∧
    (recordAll Ledger.empty entries).request_timestamps.length
        = (recordAll Ledger.empty entries).token_counts.length ∧
    (recordAll Ledger.empty entries).request_timestamps_day.length
        = (recordAll Ledger.empty entries).token_counts_day.length := by
  rw [recordAll_spec]
  simp [Ledger.empty, Ledger.snapshot]

/-- Claim C8 (counterexample): for the six-character credential
"secret" the masked key is "**********secret", which contains the full
credential as a substring — k[-6:] is the entire key whenever the key
has at most six characters. -/
theorem mask_reveals_short_credential :
    "secret".toList <:+: (maskKey "secret").toList :=
  ⟨List.replicate 10 '*', [], by decide⟩

/-- Claim C8 (amended): the masked key shows ten asterisks plus only
the last six characters of the credential; for any credential longer
than 16 characters (so in particular real upstream keys) the masked key
cannot contain the full credential, its total length being at most 16. -/
theorem mask_hides_long_credential (k : String) (h : 16 < k.length) :
    ¬ (k.toList <:+: (maskKey k).toList) := by
  intro hinf
  have hlen := hinf.length_le
  have hm : (maskKey k).toList.length ≤ 16 := by
    show (List.replicate 10 '*' ++ k.toList.drop (k.toList.length - 6)).length ≤ 16
    rw [List.length_append, List.length_replicate, List.length_drop]
    omega
  have hk : k.toList.length = k.length := rfl
  omega

theorem mask_hides_long_credential_witness :
    ¬ ("k-0123456789abcde".toList <:+: (maskKey "k-0123456789abcde").toList) :=
  mask_hides_long_credential "k-0123456789abcde" (by decide)

/-- Claim C4: a refresh that fails — empty credential pool, transport
error, HTTP error status, body parse failure or extraction failure —
sets text_models to the empty list, so isValid answers false afterwards
for every model, in particular every model listed by the preceding
successful refresh. -/
theorem refresh_failure_clears_registry (all_keys : List String)
    (fetch1 fetch2 : Option (Nat × Option Json)) (m : String)
    (hprev : isValid (refresh_models all_keys fetch1) m = true)
    (hfail : all_keys = [] ∨ fetch2 = none ∨
      ∃ s b, fetch2 = some (s, b) ∧
        (400 ≤ s ∨ b = none ∨ ∃ js, b = some js ∧ extractModels js = none)) :
    refresh_models all_keys fetch2 = [] ∧
      isValid (refresh_models all_keys fetch2) m = false := by
  have hempty : refresh_models all_keys fetch2 = [] := by
    rcases hfail with hk | hf | ⟨s, b, hf, hcase⟩
    · rw [hk]; rfl
    · cases all_keys with
      | nil => rfl
      | cons a ks => rw [hf]; rfl
    · cases all_keys with
      | nil => rfl
      | cons a ks =>
        subst hf
        rcases hcase with hs | hb | ⟨js, hb, hex⟩
        · simp [refresh_models, if_pos hs]
        · subst hb
          by_cases h4 : 400 ≤ s
          · simp [refresh_models, if_pos h4]
          · simp [refresh_models, if_neg h4]
        · subst hb
          by_cases h4 : 400 ≤ s
          · simp [refresh_models, if_pos h4]
          · simp [refresh_models, if_neg h4, hex]
  exact ⟨hempty, by rw [hempty]; rfl⟩

theorem refresh_failure_clears_registry_witness :
    refresh_models ["k"] none = [] ∧
      isValid (refresh_models ["k"] none) "m" = false :=
  refresh_failure_clears_registry ["k"]
    (some (200, some (.obj [("data", .arr [.obj [("id", .str "m")]])]))) none "m"
    (by decide) (Or.inr (Or.inl rfl))

/-- Folding a reduced counter value back into the stored counter does
not change the selected index modulo the pool size. -/
theorem rotation_step (len a c : Nat) :
    (a % len + 1 + c) % len = (a + (c + 1)) % len := by
  rw [add_assoc, Nat.mod_add_mod]
  congr 1
  omega

/-- The j-th selection of a run picks the pool slot given by the
model's stored counter plus the number of earlier requests in the run
for the same model, reduced modulo the pool size. -/
theorem runSelections_getElem (all_keys : List String) (hN : 0 < all_keys.length) :
    ∀ (ms : List String) (model_key_idx : String → Nat) (j : Nat)
      (hj : j < ms.length),
      (runSelections all_keys model_key_idx ms)[j]? =
        some (all_keys[(model_key_idx ms[j] + (ms.take j).count ms[j])
          % all_keys.length]?) := by
  intro ms
  induction ms with
  | nil => intro idx j hj; exact absurd hj (Nat.not_lt_zero j)
  | cons m rest ih =>
    intro idx j hj
    cases j with
    | zero =>
      simp only [runSelections, select_key, dif_pos hN]
      rw [List.getElem?_cons_zero]
      rw [List.getElem?_eq_getElem (Nat.mod_lt _ hN)]
      simp
    | succ j =>
      have hj2 : j < rest.length := Nat.lt_of_succ_lt_succ hj
      simp only [runSelections, select_key, dif_pos hN]
      rw [List.getElem?_cons_succ]
      rw [ih _ j hj2]
      congr 2
      simp only [List.getElem_cons_succ, List.take_succ_cons, List.count_cons]
      by_cases hx : rest[j] = m
      · rw [hx]
        simp only [if_pos rfl, beq_self_eq_true, if_true]
        exact rotation_step all_keys.length (idx m) ((rest.take j).count m)
      · have hb : (m == rest[j]) = false := by
          simp only [beq_eq_false_iff_ne, ne_eq]
          exact fun he => hx he.symm
        rw [if_neg hx, hb]
        simp

/-- Claim C1: starting from the initial rotation state, the k-th
selection for a model M in any request run — counting only the requests
for M, with requests for other models freely interleaved — returns
pool[(k-1) mod N]: N successive selections for M return each credential
once in pool order, the (N+1)-th repeats the first, and distinct models
rotate independently. -/
theorem select_key_round_robin (all_keys ms : List String) (j : Nat)
    (hN : 0 < all_keys.length) (hj : j < ms.length) :
    (runSelections all_keys (fun _ => 0) ms)[j]? =
      some (all_keys[((ms.take j).count ms[j]) % all_keys.length]?) := by
  have h := runSelections_getElem all_keys hN ms (fun _ => 0) j hj
  simpa using h

theorem select_key_round_robin_witness :
    (runSelections ["a", "b", "c"] (fun _ => 0) ["M", "X", "M", "M", "M"])[4]? =
      some (some "a") := by
  have h := select_key_round_robin ["a", "b", "c"] ["M", "X", "M", "M", "M"] 4
    (by decide) (by decide)
  exact h.trans (by decide)

/-- Lines that are not candidate data lines are skipped by the
backward scan. -/
theorem scanBack_append_skip (parse : String → Option Json) (ls : List String)
    (h : ∀ l ∈ ls, isCandidateLine l = false) (rest : List String) :
    scanBack parse (ls ++ rest) = scanBack parse rest := by
  induction ls with
  | nil => rfl
  | cons l tl ih =>
    have hl : isCandidateLine l = false := h l (by simp)
    have htl : ∀ x ∈ tl, isCandidateLine x = false := fun x hx => h x (by simp [hx])
    rw [List.cons_append]
    by_cases hpf : (("data: ".toList).isPrefixOf l.toList) = true
    · have hdone : String.mk (l.toList.drop 6) = "[DONE]" := by
        unfold isCandidateLine at hl
        rw [hpf] at hl
        simpa using hl
      simp only [scanBack, hpf, if_true]
      rw [if_pos hdone]
      exact ih htl
    · have hpf2 : (("data: ".toList).isPrefixOf l.toList) = false :=
        Bool.eq_false_iff.mpr hpf
      simp only [scanBack, hpf2, Bool.false_eq_true, if_false]
      exact ih htl

/-- The backward scan stops at the first candidate line and takes that
payload's value, malformed or not. -/
theorem scanBack_cons_candidate (parse : String → Option Json) (line : String)
    (rest : List String) (hc : isCandidateLine line = true) :
    scanBack parse (line :: rest) =
      payloadTokens parse (String.mk (line.toList.drop 6)) := by
  unfold isCandidateLine at hc
  rw [Bool.and_eq_true] at hc
  obtain ⟨hpf, hnd⟩ := hc
  have hnd2 : ¬(String.mk (line.toList.drop 6) = "[DONE]") := by simpa using hnd
  simp only [scanBack, hpf, if_true]
  rw [if_neg hnd2]

/-- Claim C3 (amended): the recorded token count is decided solely by
the last `data: ` line other than the [DONE] terminator: the value of
its payload — usage.total_tokens when the payload parses and carries
one, 0 when it is malformed or usage-less, earlier lines never being
consulted — and 0 when no such line exists at all. -/
theorem stream_tokens_from_last_data_line (parse : String → Option Json)
    (buffer : String) :
    (∀ pre line post,
        splitlines (pyStrip buffer) = pre ++ line :: post →
        (∀ l ∈ post, isCandidateLine l = false) →
        isCandidateLine line = true →
        extractStreamTokens parse buffer =
          payloadTokens parse (String.mk (line.toList.drop 6))) ∧
    ((∀ l ∈ splitlines (pyStrip buffer), isCandidateLine l = false) →
        extractStreamTokens parse buffer = 0) := by
  constructor
  · intro pre line post hsplit hpost hline
    unfold extractStreamTokens
    rw [hsplit]
    have hr : (pre ++ line :: post).reverse = post.reverse ++ line :: pre.reverse := by
      simp
    rw [hr, scanBack_append_skip parse post.reverse
      (fun l hl => hpost l (List.mem_reverse.mp hl)) _]
    exact scanBack_cons_candidate parse line pre.reverse hline
  · intro hall
    unfold extractStreamTokens
    have h := scanBack_append_skip parse (splitlines (pyStrip buffer)).reverse
      (fun l hl => hall l (List.mem_reverse.mp hl)) []
    simpa using h

theorem stream_tokens_from_last_data_line_witness :
    extractStreamTokens testParse witnessBuffer42 = 42 := by
  have h := (stream_tokens_from_last_data_line testParse witnessBuffer42).1
    ["x"] ("data: " ++ usagePayload42) ["data: [DONE]"]
    (by decide) (by decide) (by decide)
  exact h.trans (by decide)

/-- Claim C3 (counterexample): in a stream whose trailing data line is
malformed, the code records 0 even though an earlier well-formed
payload carries usage.total_tokens = 7 — the scan does not skip the
malformed trailing line, and 0 is recorded although a usage payload
exists in the stream. -/
theorem stream_tokens_counterexample :
    extractStreamTokens testParse counterexampleBuffer = 0 ∧
      specLastUsageTokens testParse counterexampleBuffer = some 7 := by
  exact ⟨by decide, by decide⟩

/-- The loop of the generator yields exactly the chunks, in order,
while accumulating their concatenation. -/
theorem genLoop_spec (chunks : List String) : ∀ buffer : String,
    genLoop chunks buffer =
      (chunks.map GenStep.yieldChunk, buffer ++ strConcat chunks) := by
  induction chunks with
  | nil =>
    intro buffer
    simp [genLoop, strConcat, String.append_empty]
  | cons c rest ih =>
    intro buffer
    simp [genLoop, ih, strConcat, String.append_assoc]

/-- Claim C2: on the streaming path the generator's trace is every
upstream chunk yielded unmodified and in arrival order, followed by
exactly one usage record, appended to both the rolling and daily
sequences in one atomic step — so usage is recorded exactly once and
only after every byte has been yielded; and when the stream's final
data line is a payload carrying usage.total_tokens 42, that single
record has token count 42. -/
theorem gen_streams_all_then_records_once (parse : String → Option Json)
    (chunks : List String) (L : Ledger) (now : Int) :
    gen parse chunks L now =
      (chunks.map GenStep.yieldChunk
         ++ [GenStep.recordUsage (extractStreamTokens parse (strConcat chunks))],
       L.record now (extractStreamTokens parse (strConcat chunks))) ∧
    (∀ line js,
      (splitlines (pyStrip (strConcat chunks))).getLast? = some line →
      isCandidateLine line = true →
      parse (String.mk (line.toList.drop 6)) = some js →
      usageTotalTokens js = some 42 →
      extractStreamTokens parse (strConcat chunks) = 42) := by
  have hbuf : (genLoop chunks "").2 = strConcat chunks := by
    rw [genLoop_spec]
    exact String.empty_append _
  constructor
  · show ((genLoop chunks "").1
          ++ [GenStep.recordUsage (extractStreamTokens parse (genLoop chunks "").2)],
        L.record now (extractStreamTokens parse (genLoop chunks "").2)) = _
    rw [hbuf, genLoop_spec]
  · intro line js hlast hcand hp hj
    unfold extractStreamTokens
    have hrev : (splitlines (pyStrip (strConcat chunks))).reverse.head? = some line := by
      rw [List.head?_reverse]
      exact hlast
    cases hrevl : (splitlines (pyStrip (strConcat chunks))).reverse with
    | nil => rw [hrevl] at hrev; cases hrev
    | cons a t =>
      rw [hrevl] at hrev
      have ha : a = line := by
        simpa using hrev
      rw [ha, scanBack_cons_candidate parse line t hcand]
      unfold payloadTokens
      rw [hp]
      show (usageTotalTokens js).getD 0 = 42
      rw [hj]
      rfl

theorem gen_streams_all_then_records_once_witness :
    gen testParse [streamChunk42] Ledger.empty 0 =
      ([streamChunk42].map GenStep.yieldChunk ++ [GenStep.recordUsage 42],
       ⟨[0], [42], [0], [42]⟩) := by
  have h := gen_streams_all_then_records_once testParse [streamChunk42]
    Ledger.empty 0
  have h42 := h.2 streamChunk42 (usageJson 42) (by decide) (by decide) rfl rfl
  rw [h.1, h42]
  simp [Ledger.record, Ledger.empty]

/-- Claim C6: an authorized chat request whose model field is absent
from the registry — or missing altogether — is answered with 400 and
body error "Invalid model", the upstream is never contacted, and the
rotation state and all four ledger sequences are returned untouched. -/
theorem invalid_model_rejected (text_models all_keys : List String)
    (model_key_idx : String → Nat) (ledger : Ledger) (req : ChatRequest)
    (upstream : Except String UpstreamResp) (parse : String → Option Json)
    (now : Int) (hv : modelValid text_models req.modelField = false) :
    chat_completions true text_models all_keys model_key_idx ledger req
        upstream parse now =
      ⟨400, errBody "Invalid model", model_key_idx, ledger, .invalidModel⟩ := by
  cases hm : req.modelField with
  | none => simp [chat_completions, hm]
  | some m =>
    rw [hm] at hv
    unfold modelValid at hv
    have hnm : ¬(m ∈ text_models) := by simpa using hv
    simp [chat_completions, hm, hnm]

theorem invalid_model_rejected_witness :
    chat_completions true ["m1"] ["k"] (fun _ => 0) Ledger.empty
        ⟨some "nope", false, none⟩ (.error "never") (fun _ => none) 0 =
      ⟨400, errBody "Invalid model", (fun _ => 0), Ledger.empty, .invalidModel⟩ :=
  invalid_model_rejected ["m1"] ["k"] (fun _ => 0) Ledger.empty
    ⟨some "nope", false, none⟩ (.error "never") (fun _ => none) 0 (by decide)

/-- Claim C5: when the upstream POST answers status 429 with a JSON
body, the handler relays exactly that status and that JSON body (a
single upstream attempt, no local retry) and appends no record to any
of the four ledger sequences. -/
theorem upstream_429_passthrough (text_models all_keys : List String)
    (model_key_idx : String → Nat) (ledger : Ledger) (req : ChatRequest)
    (m : String) (resp : UpstreamResp) (js : Json)
    (parse : String → Option Json) (now : Int)
    (hm : req.modelField = some m)
    (hv : text_models.contains m = true)
    (hkeys : 0 < all_keys.length)
    (hne : ∀ k ∈ all_keys, ¬(k = ""))
    (hs : resp.status = 429)
    (hb : resp.body = some js) :
    chat_completions true text_models all_keys model_key_idx ledger req
        (.ok resp) parse now =
      ⟨429, .json js,
       fun m2 => if m2 = m then model_key_idx m % all_keys.length + 1
                 else model_key_idx m2,
       ledger, .rateLimited⟩ := by
  have hmem : m ∈ text_models := by simpa using hv
  have hlt : model_key_idx m % all_keys.length < all_keys.length :=
    Nat.mod_lt _ hkeys
  have hkey : ¬(all_keys[model_key_idx m % all_keys.length] = "") :=
    hne _ (List.getElem_mem hlt)
  simp [chat_completions, hm, hmem, select_key, dif_pos hkeys, if_neg hkey, hs, hb]

theorem upstream_429_passthrough_witness :
    chat_completions true ["m"] ["k"] (fun _ => 0) Ledger.empty
        ⟨some "m", false, none⟩
        (.ok ⟨429, some (.obj [("error", .str "rate limited")]), []⟩)
        (fun _ => none) 0 =
      ⟨429, .json (.obj [("error", .str "rate limited")]),
       fun m2 => if m2 = "m" then (fun _ => 0 : String → Nat) "m" % ["k"].length + 1
                 else (fun _ => 0 : String → Nat) m2,
       Ledger.empty, .rateLimited⟩ :=
  upstream_429_passthrough ["m"] ["k"] (fun _ => 0) Ledger.empty
    ⟨some "m", false, none⟩ "m" ⟨429, some (.obj [("error", .str "rate limited")]), []⟩
    (.obj [("error", .str "rate limited")]) (fun _ => none) 0
    rfl (by decide) (by decide) (by decide) rfl rfl

/-- Claim C9 (counterexample): a non-streaming upstream answer with
status 500 whose body parses to the JSON array [] is answered with 500,
not 200 — the chained .get calls raise on a non-dict body and the
handler's catch-all turns that into a 500 — so a JSON-parseable body
alone does not guarantee a 200. -/
theorem non_streaming_array_body_500 :
    (chat_completions true ["m"] ["k"] (fun _ => 0) Ledger.empty
        ⟨some "m", false, none⟩ (.ok ⟨500, some (.arr []), []⟩)
        (fun _ => none) 0).status = 500 ∧
    (chat_completions true ["m"] ["k"] (fun _ => 0) Ledger.empty
        ⟨some "m", false, none⟩ (.ok ⟨500, some (.arr []), []⟩)
        (fun _ => none) 0).outcome = .proxyError ∧
    ¬((chat_completions true ["m"] ["k"] (fun _ => 0) Ledger.empty
        ⟨some "m", false, none⟩ (.ok ⟨500, some (.arr []), []⟩)
        (fun _ => none) 0).status = 200) :=
  ⟨rfl, rfl, by decide⟩

/-- Claim C9 (amended): for a non-streaming request, when the upstream
POST completes with any status other than 429 and a JSON body on which
the usage extraction does not raise (a JSON object whose usage member,
if present, is an object), the handler answers 200 with that body
verbatim — the upstream's own status, for example 500, is never
propagated — and appends exactly one record to all four ledger
sequences; a body on which extraction raises yields a 500 instead. -/
theorem non_streaming_returns_200 (text_models all_keys : List String)
    (model_key_idx : String → Nat) (ledger : Ledger) (req : ChatRequest)
    (m : String) (resp : UpstreamResp) (js : Json) (t : Int)
    (parse : String → Option Json) (now : Int)
    (hm : req.modelField = some m)
    (hv : text_models.contains m = true)
    (hkeys : 0 < all_keys.length)
    (hne : ∀ k ∈ all_keys, ¬(k = ""))
    (hstream : req.stream = false)
    (hs : ¬(resp.status = 429))
    (hb : resp.body = some js)
    (ht : usageTotalTokens js = some t) :
    chat_completions true text_models all_keys model_key_idx ledger req
        (.ok resp) parse now =
      ⟨200, .json js,
       fun m2 => if m2 = m then model_key_idx m % all_keys.length + 1
                 else model_key_idx m2,
       ledger.record now t, .buffered⟩ := by
  have hmem : m ∈ text_models := by simpa using hv
  have hlt : model_key_idx m % all_keys.length < all_keys.length :=
    Nat.mod_lt _ hkeys
  have hkey : ¬(all_keys[model_key_idx m % all_keys.length] = "") :=
    hne _ (List.getElem_mem hlt)
  simp [chat_completions, hm, hmem, select_key, dif_pos hkeys, if_neg hkey,
    if_neg hs, hstream, hb, ht]

theorem non_streaming_returns_200_witness :
    chat_completions true ["m"] ["k"] (fun _ => 0) Ledger.empty
        ⟨some "m", false, none⟩ (.ok ⟨500, some (usageJson 9), []⟩)
        (fun _ => none) 0 =
      ⟨200, .json (usageJson 9),
       fun m2 => if m2 = "m" then (fun _ => 0 : String → Nat) "m" % ["k"].length + 1
                 else (fun _ => 0 : String → Nat) m2,
       Ledger.empty.record 0 9, .buffered⟩ :=
  non_streaming_returns_200 ["m"] ["k"] (fun _ => 0) Ledger.empty
    ⟨some "m", false, none⟩ "m" ⟨500, some (usageJson 9), []⟩ (usageJson 9) 9
    (fun _ => none) 0 rfl (by decide) (by decide) (by decide) rfl (by decide) rfl rfl

/-- Every reachable credential pool contains no empty-string key:
load_keys filters them out and the pool never changes afterwards. -/
theorem reachable_keys_nonempty_strings (all_keys text_models : List String)
    (h : Reachable all_keys text_models) : ∀ k ∈ all_keys, ¬(k = "") := by
  induction h with
  | boot raw =>
    intro k hk
    have hf := List.mem_filter.mp hk
    simpa using hf.2
  | step ak tm fetch hr ih => exact ih

/-- In every reachable state, an empty pool forces an empty registry:
the registry starts empty and every refresh with an empty pool clears
it. -/
theorem reachable_empty_pool_empty_registry (all_keys text_models : List String)
    (h : Reachable all_keys text_models) : all_keys = [] → text_models = [] := by
  induction h with
  | boot raw => intro _; rfl
  | step ak tm fetch hr ih =>
    intro hk
    subst hk
    rfl

/-- Claim C10: in every reachable state an empty credential pool
implies an empty model registry, so the 429 "No available key" terminal
state is unreachable through the chat-completions flow: with an empty
pool every request already fails with 401 or 400. -/
theorem no_available_key_unreachable (all_keys text_models : List String)
    (h : Reachable all_keys text_models) :
    (all_keys = [] → text_models = []) ∧
    (∀ (authOk : Bool) (model_key_idx : String → Nat) (ledger : Ledger)
       (req : ChatRequest) (upstream : Except String UpstreamResp)
       (parse : String → Option Json) (now : Int),
      ¬((chat_completions authOk text_models all_keys model_key_idx ledger req
          upstream parse now).outcome = Outcome.noKey)) ∧
    (all_keys = [] →
      ∀ (authOk : Bool) (model_key_idx : String → Nat) (ledger : Ledger)
        (req : ChatRequest) (upstream : Except String UpstreamResp)
        (parse : String → Option Json) (now : Int),
      (chat_completions authOk text_models all_keys model_key_idx ledger req
          upstream parse now).status = 401 ∨
      (chat_completions authOk text_models all_keys model_key_idx ledger req
          upstream parse now).status = 400) := by
  have hkeysne := reachable_keys_nonempty_strings all_keys text_models h
  have hinv := reachable_empty_pool_empty_registry all_keys text_models h
  refine ⟨hinv, ?_, ?_⟩
  · intro authOk idx L req up parse now hcon
    cases authOk with
    | false => simp [chat_completions] at hcon
    | true =>
      cases hm : req.modelField with
      | none => simp [chat_completions, hm] at hcon
      | some m =>
        by_cases hv : text_models.contains m = true
        · have hmem : m ∈ text_models := by simpa using hv
          have htm : text_models ≠ [] := List.ne_nil_of_mem hmem
          have hks : all_keys ≠ [] := fun hk => htm (hinv hk)
          have hlen : 0 < all_keys.length := List.length_pos.mpr hks
          have hlt : idx m % all_keys.length < all_keys.length :=
            Nat.mod_lt _ hlen
          have hkey : ¬(all_keys[idx m % all_keys.length] = "") :=
            hkeysne _ (List.getElem_mem hlt)
          cases up with
          | error e =>
            simp [chat_completions, hm, hmem, select_key, dif_pos hlen,
              if_neg hkey] at hcon
          | ok resp =>
            by_cases hst : resp.status = 429
            · cases hbody : resp.body with
              | none =>
                simp [chat_completions, hm, hmem, select_key, dif_pos hlen,
                  if_neg hkey, hst, hbody] at hcon
              | some js =>
                simp [chat_completions, hm, hmem, select_key, dif_pos hlen,
                  if_neg hkey, hst, hbody] at hcon
            · by_cases hstr : req.stream = true
              · simp [chat_completions, hm, hmem, select_key, dif_pos hlen,
                  if_neg hkey, if_neg hst, hstr] at hcon
              · have hstr2 : req.stream = false := Bool.eq_false_iff.mpr hstr
                cases hbody : resp.body with
                | none =>
                  simp [chat_completions, hm, hmem, select_key, dif_pos hlen,
                    if_neg hkey, if_neg hst, hstr2, hbody] at hcon
                | some js =>
                  cases hut : usageTotalTokens js with
                  | none =>
                    simp [chat_completions, hm, hmem, select_key, dif_pos hlen,
                      if_neg hkey, if_neg hst, hstr2, hbody, hut] at hcon
                  | some t =>
                    simp [chat_completions, hm, hmem, select_key, dif_pos hlen,
                      if_neg hkey, if_neg hst, hstr2, hbody, hut] at hcon
        · have hv2 : text_models.contains m = false := Bool.eq_false_iff.mpr hv
          have hnm : ¬(m ∈ text_models) := by simpa using hv2
          simp [chat_completions, hm, hnm] at hcon
  · intro hk authOk idx L req up parse now
    have htm : text_models = [] := hinv hk
    subst htm
    cases authOk with
    | false => left; simp [chat_completions]
    | true =>
      cases hm : req.modelField with
      | none => right; simp [chat_completions, hm]
      | some m => right; simp [chat_completions, hm]

theorem no_available_key_unreachable_witness :
    ¬((chat_completions true [] (load_keys "") (fun _ => 0) Ledger.empty
        ⟨some "m", false, none⟩ (.error "down") (fun _ => none) 0).outcome
          = Outcome.noKey) :=
  (no_available_key_unreachable (load_keys "") [] (Reachable.boot "")).2.1
    true (fun _ => 0) Ledger.empty ⟨some "m", false, none⟩ (.error "down")
    (fun _ => none) 0

end SFGateway
